import Mathlib

/-!
Verification of the feed-monitoring core (`src/command/monitor.py`) of
RSS-to-Telegram-Bot.

This file gives a shallow embedding of:
* the monitoring-statistics engine (`MonitoringCounter`, `MonitoringStat`,
  its tag methods and `print_summary`),
* the per-feed task-state machine (`TaskState`, `Monitor.submit_feed`,
  `Monitor._lock_feed_id`, `Monitor._erase_state_for_feed_id`),
* the monitor worker (`Monitor._do_monitor_task`),
* the update detector (`_do_monitor_a_feed` and
  `_defer_next_check_as_per_server_side_cache`),
* the blocked-user escalation handler
  (`__locked_unsub_all_and_leave_chat`),
and proves the specification claims about them.

Conventions of the embedding:
* Python `datetime` values are modelled as `Int` (seconds); `loop.time()`
  floats are modelled as `ℚ` (event-loop timestamps are exact reals here,
  which in particular represents exact halves faithfully).
* External collaborators (database, fetcher, parser, transport) are inputs:
  their results for the one run under study are fields of an environment
  structure.
* `asyncio` interleaving is not modelled; each theorem is about one
  synchronous region or one worker run, mirroring the source's own
  atomicity argument (all read-modify-write sequences on the state table
  are synchronous).
-/

/-- Counter record (`MonitoringCounter` in the source): one non-negative
count per outcome tag plus the derived `SUM` key.  The Python class is a
`Counter` with named properties; missing keys read as `0`, so a record of
`Nat` fields is an exact model. -/
structure MonitoringCounter where
  SUM : Nat
  not_updated : Nat
  cached : Nat
  empty : Nat
  failed : Nat
  updated : Nat
  skipped : Nat
  timeout : Nat
  cancelled : Nat
  unknown_error : Nat
  timeout_unknown_error : Nat
  deferred : Nat
  resubmitted : Nat
deriving DecidableEq, Repr

/-- The all-zero counter (a freshly constructed Python `Counter`, and also
the result of `Counter.clear()`). -/
def MonitoringCounter.init : MonitoringCounter :=
  ⟨0, 0, 0, 0, 0, 0, 0, 0, 0, 0, 0, 0, 0⟩

/-- Element-wise sum (`self._counter_tier1 += self._counter_tier2`; Python
`Counter` addition drops non-positive entries, which on naturals with
missing-reads-as-zero is exactly element-wise `Nat` addition). -/
def MonitoringCounter.add (a b : MonitoringCounter) : MonitoringCounter :=
  ⟨a.SUM + b.SUM, a.not_updated + b.not_updated, a.cached + b.cached,
   a.empty + b.empty, a.failed + b.failed, a.updated + b.updated,
   a.skipped + b.skipped, a.timeout + b.timeout, a.cancelled + b.cancelled,
   a.unknown_error + b.unknown_error,
   a.timeout_unknown_error + b.timeout_unknown_error,
   a.deferred + b.deferred, a.resubmitted + b.resubmitted⟩

/-- `TIMEOUT = 10 * 60` seconds from the source (both the worker timeout
and the tier-1 summary period). -/
def TIMEOUT : Int := 10 * 60

/-- `MonitoringStat` state: the two counters and the two last-summary
timestamps (`None` before the first `print_summary` call). -/
structure MonitoringStat where
  counter_tier1 : MonitoringCounter
  counter_tier2 : MonitoringCounter
  tier1_last_summary_time : Option ℚ
  tier2_last_summary_time : Option ℚ
deriving DecidableEq, Repr

/-- A fresh `MonitoringStat()` (both counters empty, both timestamps
`None`). -/
def MonitoringStat.init : MonitoringStat :=
  ⟨MonitoringCounter.init, MonitoringCounter.init, none, none⟩

/-- `MonitoringStat._sum`: increment tier-2 `SUM`. -/
def MonitoringStat._sum (s : MonitoringStat) : MonitoringStat :=
  { s with counter_tier2.SUM := s.counter_tier2.SUM + 1 }

/-- `MonitoringStat.not_updated`: increment tier-2 `not_updated`, then
`_sum`. -/
def MonitoringStat.not_updated (s : MonitoringStat) : MonitoringStat :=
  MonitoringStat._sum
    { s with counter_tier2.not_updated := s.counter_tier2.not_updated + 1 }

/-- `MonitoringStat.cached`: increment tier-2 `cached`, then
`not_updated` (which bumps `SUM`). -/
def MonitoringStat.cached (s : MonitoringStat) : MonitoringStat :=
  MonitoringStat.not_updated
    { s with counter_tier2.cached := s.counter_tier2.cached + 1 }

/-- `MonitoringStat.empty`: increment tier-2 `empty`, then `not_updated`
(which bumps `SUM`). -/
def MonitoringStat.empty (s : MonitoringStat) : MonitoringStat :=
  MonitoringStat.not_updated
    { s with counter_tier2.empty := s.counter_tier2.empty + 1 }

/-- `MonitoringStat.failed`. -/
def MonitoringStat.failed (s : MonitoringStat) : MonitoringStat :=
  MonitoringStat._sum
    { s with counter_tier2.failed := s.counter_tier2.failed + 1 }

/-- `MonitoringStat.updated`. -/
def MonitoringStat.updated (s : MonitoringStat) : MonitoringStat :=
  MonitoringStat._sum
    { s with counter_tier2.updated := s.counter_tier2.updated + 1 }

/-- `MonitoringStat.skipped`. -/
def MonitoringStat.skipped (s : MonitoringStat) : MonitoringStat :=
  MonitoringStat._sum
    { s with counter_tier2.skipped := s.counter_tier2.skipped + 1 }

/-- `MonitoringStat.timeout`. -/
def MonitoringStat.timeout (s : MonitoringStat) : MonitoringStat :=
  MonitoringStat._sum
    { s with counter_tier2.timeout := s.counter_tier2.timeout + 1 }

/-- `MonitoringStat.cancelled`. -/
def MonitoringStat.cancelled (s : MonitoringStat) : MonitoringStat :=
  MonitoringStat._sum
    { s with counter_tier2.cancelled := s.counter_tier2.cancelled + 1 }

/-- `MonitoringStat.unknown_error`. -/
def MonitoringStat.unknown_error (s : MonitoringStat) : MonitoringStat :=
  MonitoringStat._sum
    { s with counter_tier2.unknown_error := s.counter_tier2.unknown_error + 1 }

/-- `MonitoringStat.timeout_unknown_error`. -/
def MonitoringStat.timeout_unknown_error (s : MonitoringStat) : MonitoringStat :=
  MonitoringStat._sum
    { s with counter_tier2.timeout_unknown_error :=
        s.counter_tier2.timeout_unknown_error + 1 }

/-- `MonitoringStat.deferred`. -/
def MonitoringStat.deferred (s : MonitoringStat) : MonitoringStat :=
  MonitoringStat._sum
    { s with counter_tier2.deferred := s.counter_tier2.deferred + 1 }

/-- `MonitoringStat.resubmitted`. -/
def MonitoringStat.resubmitted (s : MonitoringStat) : MonitoringStat :=
  MonitoringStat._sum
    { s with counter_tier2.resubmitted := s.counter_tier2.resubmitted + 1 }

/-- One tag-method call, as data (used to speak about arbitrary sequences
of calls on a `MonitoringStat`). -/
inductive StatOp
  | not_updated
  | cached
  | empty
  | failed
  | updated
  | skipped
  | timeout
  | cancelled
  | unknown_error
  | timeout_unknown_error
  | deferred
  | resubmitted
deriving DecidableEq, Repr

/-- Dispatch a `StatOp` to the corresponding source method. -/
def apply_stat_op : StatOp → MonitoringStat → MonitoringStat
  | .not_updated, s => s.not_updated
  | .cached, s => s.cached
  | .empty, s => s.empty
  | .failed, s => s.failed
  | .updated, s => s.updated
  | .skipped, s => s.skipped
  | .timeout, s => s.timeout
  | .cancelled, s => s.cancelled
  | .unknown_error, s => s.unknown_error
  | .timeout_unknown_error, s => s.timeout_unknown_error
  | .deferred, s => s.deferred
  | .resubmitted, s => s.resubmitted

/-- Apply a sequence of tag-method calls in order. -/
def apply_stat_ops (ops : List StatOp) (s : MonitoringStat) : MonitoringStat :=
  ops.foldl (fun t op => apply_stat_op op t) s

/-- The `SUM` bookkeeping identity claimed of the counter: `SUM` equals the
sum of the counters that bump it directly (`cached`/`empty` feed through
`not_updated` and are therefore not separate summands). -/
def sum_invariant (c : MonitoringCounter) : Prop :=
  c.SUM = c.not_updated + c.failed + c.updated + c.skipped + c.timeout +
    c.cancelled + c.unknown_error + c.timeout_unknown_error + c.deferred +
    c.resubmitted

/-- Python's built-in `round` to an integer (round half to even), on exact
event-loop timestamps. -/
def pyRound (q : ℚ) : Int :=
  let f := Rat.floor q
  let r := q - (f : ℚ)
  if r < 1 / 2 then f
  else if 1 / 2 < r then f + 1
  else if f % 2 = 0 then f else f + 1

/-- Log levels of the summary lines. -/
inductive LogLevel
  | debug
  | info
  | warning
deriving DecidableEq, Repr

/-- One emitted summary line (`MonitoringStat._summarize`): the counter it
summarized, the level it was logged at, the rounded time difference, and
whether it was the "no monitoring task" debug line. -/
structure SummaryEvent where
  counter : MonitoringCounter
  level : LogLevel
  time_diff : Int
  no_tasks : Bool
deriving DecidableEq, Repr

/-- `MonitoringStat._summarize`: a summary line at `default_log_level`,
upgraded to WARNING when any of `cancelled`, `unknown_error`, `timeout`,
`timeout_unknown_error` is non-zero; a debug "no task" line when
`SUM == 0`. -/
def summarize_event (counter : MonitoringCounter) (default_log_level : LogLevel)
    (time_diff : Int) : SummaryEvent :=
  if counter.SUM ≠ 0 then
    { counter := counter
      level :=
        if counter.cancelled ≠ 0 ∨ counter.unknown_error ≠ 0 ∨
            counter.timeout ≠ 0 ∨ counter.timeout_unknown_error ≠ 0
        then LogLevel.warning else default_log_level
      time_diff := time_diff
      no_tasks := false }
  else
    { counter := counter, level := LogLevel.debug, time_diff := time_diff
      no_tasks := true }

/-- `MonitoringStat.print_summary` at event-loop time `now`: returns the
new state and the emitted summary lines.  The result is `none` only in the
unreachable state where the tier-1 timestamp is set but the tier-2 one is
not (the Python would raise a `TypeError` there; the source sets both
together). -/
def MonitoringStat.print_summary (s : MonitoringStat) (now : ℚ) :
    Option (MonitoringStat × List SummaryEvent) :=
  match s.tier1_last_summary_time with
  | none =>
    some ({ s with tier1_last_summary_time := some now
                   tier2_last_summary_time := some now }, [])
  | some t1 =>
    match s.tier2_last_summary_time with
    | none => none
    | some t2 =>
      let tier2_time_diff := pyRound (now - t2)
      let ev2 := summarize_event s.counter_tier2 LogLevel.debug tier2_time_diff
      let s1 : MonitoringStat :=
        { s with tier2_last_summary_time := some now
                 counter_tier1 := s.counter_tier1.add s.counter_tier2
                 counter_tier2 := MonitoringCounter.init }
      let tier1_time_diff := pyRound (now - t1)
      if tier1_time_diff < TIMEOUT then some (s1, [ev2])
      else
        let ev1 := summarize_event s1.counter_tier1 LogLevel.info tier1_time_diff
        some ({ s1 with tier1_last_summary_time := some now
                        counter_tier1 := MonitoringCounter.init }, [ev2, ev1])

/-- `TaskState`: the per-feed bitset over {LOCKED, IN_PROGRESS, DEFERRED}
(`enum.IntFlag` in the source), modelled as one `Bool` per bit. -/
structure TaskState where
  locked : Bool
  in_progress : Bool
  deferred : Bool
deriving DecidableEq, Repr

/-- `TaskState.EMPTY = 0`. -/
def TaskState.EMPTY : TaskState := ⟨false, false, false⟩

/-- `TaskState.LOCKED = 1 << 0`. -/
def TaskState.LOCKED : TaskState := ⟨true, false, false⟩

/-- `TaskState.IN_PROGRESS = 1 << 1`. -/
def TaskState.IN_PROGRESS : TaskState := ⟨false, true, false⟩

/-- `TaskState.DEFERRED = 1 << 2`. -/
def TaskState.DEFERRED : TaskState := ⟨false, false, true⟩

/-- Bitwise or `a | b`. -/
def TaskState.or (a b : TaskState) : TaskState :=
  ⟨a.locked || b.locked, a.in_progress || b.in_progress,
   a.deferred || b.deferred⟩

/-- Bitwise clear `a & ~b`. -/
def TaskState.erase (a b : TaskState) : TaskState :=
  ⟨a.locked && !b.locked, a.in_progress && !b.in_progress,
   a.deferred && !b.deferred⟩

/-- Point update of the `_task_defer_map` (a `defaultdict`, so the map is
total with default `TaskState.EMPTY`). -/
def mapUpdate (m : Int → TaskState) (k : Int) (v : TaskState) :
    Int → TaskState :=
  fun i => if i = k then v else m i

/-- The mutable state of the `Monitor` singleton that the claims are
about: the statistics object, the submission queue (feeds are represented
by their ids; `submit_feed` enqueues the feed object and the resubmission
path enqueues the bare id, both carrying the same id), the
`_task_defer_map`, and the pending `call_later` unlock timers
(delay in seconds, feed id). -/
structure MonitorState where
  stat : MonitoringStat
  queue : List Int
  task_defer_map : Int → TaskState
  timers : List (Nat × Int)

/-- `Monitor._lock_feed_id`: a no-op when the configured
`minimal_interval` is at most 1 minute; otherwise overwrite the feed's
state to `{LOCKED}` and schedule `_erase_state_for_feed_id(feed_id,
LOCKED)` after `minimal_interval * 60` seconds. -/
def lock_feed_id (minimal_interval : Nat) (st : MonitorState) (feed_id : Int) :
    MonitorState :=
  if minimal_interval ≤ 1 then st
  else
    { st with
      task_defer_map := mapUpdate st.task_defer_map feed_id TaskState.LOCKED
      timers := st.timers ++ [(minimal_interval * 60, feed_id)] }

/-- `Monitor.submit_feed`: with state exactly `{DEFERRED}` log the
"deferred task was never resubmitted" warning and fall through to
enqueue; with any other non-empty state set the DEFERRED bit and count
`deferred`; with empty state lock and enqueue. -/
def submit_feed (minimal_interval : Nat) (st : MonitorState) (feed_id : Int) :
    MonitorState :=
  let task_state := st.task_defer_map feed_id
  if task_state = TaskState.DEFERRED then
    let st2 := lock_feed_id minimal_interval st feed_id
    { st2 with queue := st2.queue ++ [feed_id] }
  else if task_state ≠ TaskState.EMPTY then
    { st with
      task_defer_map :=
        mapUpdate st.task_defer_map feed_id (task_state.or TaskState.DEFERRED)
      stat := st.stat.deferred }
  else
    let st2 := lock_feed_id minimal_interval st feed_id
    { st2 with queue := st2.queue ++ [feed_id] }

/-- `Monitor._erase_state_for_feed_id`: warn and no-op on an empty state;
if clearing `flag_to_erase` leaves exactly `{DEFERRED}`, re-lock, enqueue
the id and count `resubmitted` (note: the map itself is only rewritten by
`lock_feed_id`, i.e. not at all when `minimal_interval <= 1`); otherwise
write back the cleared flags. -/
def erase_state_for_feed_id (minimal_interval : Nat) (st : MonitorState)
    (feed_id : Int) (flag_to_erase : TaskState) : MonitorState :=
  let task_state := st.task_defer_map feed_id
  if task_state = TaskState.EMPTY then st
  else
    let erased_state := task_state.erase flag_to_erase
    if erased_state = TaskState.DEFERRED then
      let st2 := lock_feed_id minimal_interval st feed_id
      { st2 with queue := st2.queue ++ [feed_id]
                 stat := st2.stat.resubmitted }
    else
      { st with
        task_defer_map := mapUpdate st.task_defer_map feed_id erased_state }

/-- The prologue of `Monitor._do_monitor_task`: or the `IN_PROGRESS` bit
into the feed's state. -/
def mark_in_progress (st : MonitorState) (feed_id : Int) : MonitorState :=
  { st with
    task_defer_map :=
      mapUpdate st.task_defer_map feed_id
        ((st.task_defer_map feed_id).or TaskState.IN_PROGRESS) }

/-- Kind of exception observed when awaiting the detector task:
`asyncio.CancelledError` or anything else. -/
inductive ExcKind
  | cancelledExc
  | otherExc
deriving DecidableEq, Repr

/-- Abstract outcome of one monitor-worker run, the worker's inputs from
the runtime: whether `asyncio.wait` timed out after `TIMEOUT` seconds
(the single inner task is then in the `pending` set and is cancelled),
what exception (if any) awaiting the inner task raised, and whether the
`asyncio.wait` machinery itself raised (`except Exception` around the
whole block). -/
structure MonitorRunOutcome where
  timedOut : Bool
  taskExc : Option ExcKind
  internalError : Bool
deriving DecidableEq, Repr

/-- The `try`/`except` classification of `Monitor._do_monitor_task`:
on timeout the single inner task is in the `pending` set, is cancelled
and awaited (`CancelledError` ⇒ `timeout`, anything else ⇒
`timeout_unknown_error`); otherwise it is in the `done` set and is
awaited (`CancelledError` ⇒ `cancelled`, anything else ⇒
`unknown_error`); an exception of the machinery itself lands in the outer
`except Exception` ⇒ `unknown_error`. -/
def classify_worker_outcome (o : MonitorRunOutcome) (s : MonitoringStat) :
    MonitoringStat :=
  if o.internalError then s.unknown_error
  else if o.timedOut then
    match o.taskExc with
    | some ExcKind.cancelledExc => s.timeout
    | some ExcKind.otherExc => s.timeout_unknown_error
    | none => s
  else
    match o.taskExc with
    | some ExcKind.cancelledExc => s.cancelled
    | some ExcKind.otherExc => s.unknown_error
    | none => s

/-- `Monitor._do_monitor_task` for a feed submitted by id: or in
`IN_PROGRESS`; if the record is missing (`feed_found = false`), log, wipe
the state to `EMPTY` and return (the `try`/`finally` is never entered);
otherwise record the classified outcome and finally apply
`_erase_state_for_feed_id(feed_id, IN_PROGRESS)`.  A feed submitted as a
full record follows the `feed_found = true` path. -/
def do_monitor_task (minimal_interval : Nat) (st : MonitorState)
    (feed_id : Int) (feed_found : Bool) (o : MonitorRunOutcome) :
    MonitorState :=
  let st1 := mark_in_progress st feed_id
  if feed_found = false then
    { st1 with
      task_defer_map := mapUpdate st1.task_defer_map feed_id TaskState.EMPTY }
  else
    let st2 := { st1 with stat := classify_worker_outcome o st1.stat }
    erase_state_for_feed_id minimal_interval st2 feed_id TaskState.IN_PROGRESS

/-- `__locked_unsub_all_and_leave_chat`, projected onto one user: given
whether the per-user unsub lock is currently held and the current value
of `__user_blocked_counter[user_id]` (a `Counter`, so a deleted or absent
entry reads as `0`), return the new counter value and whether
`unsub_all_and_leave_chat` was invoked.  Lock held: return immediately.
Counter below 5: increment and return.  Otherwise: delete the entry and
unsubscribe. -/
def locked_unsub_all_and_leave_chat (lock_held : Bool) (counter : Nat) :
    Nat × Bool :=
  if lock_held then (counter, false)
  else if counter < 5 then (counter + 1, false)
  else (0, true)

/-- State after `n` consecutive blocked-style delivery failures for one
user, starting from an absent counter entry, with the per-user lock free
at each arrival (each failure runs `__locked_unsub_all_and_leave_chat` to
completion): returns the counter value and how many times
`unsub_all_and_leave_chat` has been invoked. -/
def run_blocked_failures : Nat → Nat × Nat
  | 0 => (0, 0)
  | n + 1 =>
    let p := run_blocked_failures n
    let q := locked_unsub_all_and_leave_chat false p.1
    (q.1, p.2 + (if q.2 then 1 else 0))

/-- The feed record fields this core reads or writes
(`db.Feed`; datetimes as `Int` seconds, `interval` in minutes). -/
structure Feed where
  id : Int
  link : String
  title : String
  etag : Option String
  last_modified : Option Int
  updated_at : Int
  entry_hashes : Option (List String)
  error_count : Nat
  next_check_time : Option Int
  interval : Option Nat
deriving DecidableEq, Repr

/-- The web-response part of a fetch result (`wr` in the source); `now` is
the field the detector assigns before computing the cache-based deferral. -/
structure WebResponseM where
  etag : Option String
  expires : Option Int
  now : Int
  last_modified : Option Int
  max_age : Option Nat
deriving DecidableEq, Repr

/-- Feed-level metadata of the parsed document (`rss_d.feed`): the keys
the detector reads via `.get` (absent ⇒ `none`) plus the `title`
attribute. -/
structure RssFeedMeta where
  generator : Option String
  updated : Option String
  ttl : Option String
  title : String
deriving DecidableEq, Repr

/-- The parsed feed document (`rss_d`); entries are opaque payloads, only
their identity and count matter to this core. -/
structure RssD where
  feed : RssFeedMeta
  entries : List String
deriving DecidableEq, Repr

/-- A fetch result (`wf = await web.feed_get(...)`): status, parsed
document (`none` ⇒ fetch failed), web response, effective URL and the
`cf-cache-status` response header. -/
structure WebFeedM where
  status : Int
  rss_d : Option RssD
  web_response : Option WebResponseM
  url : String
  cf_cache_status : Option String
deriving DecidableEq, Repr

/-- Python `str.isdecimal()` restricted to ASCII decimal digits (empty
string is not decimal). -/
def isDecimalString (s : String) : Bool :=
  s.data ≠ [] && s.data.all Char.isDigit

/-- `int(...)` on a decimal string. -/
def strToNat (s : String) : Nat :=
  s.data.foldl (fun n c => n * 10 + (c.toNat - 48)) 0

/-- Membership test of `cf-cache-status` in
`{'HIT', 'MISS', 'EXPIRED', 'REVALIDATED'}`. -/
def cf_cache_status_ok (cf : Option String) : Bool :=
  cf == some "HIT" || cf == some "MISS" || cf == some "EXPIRED" ||
    cf == some "REVALIDATED"

/-- The Cloudflare guard of `_defer_next_check_as_per_server_side_cache`:
`expires` present (a datetime is always truthy), `cf-cache-status` in the
accepted set, and `expires > now`. -/
def cloudflare_hit (cf : Option String) (wr : WebResponseM) : Bool :=
  match wr.expires with
  | some e => cf_cache_status_ok cf && decide (wr.now < e)
  | none => false

/-- TTL seconds for the RSSHub branch: `int(ttl) * 60` when the feed's
`ttl` string (default `''`) is decimal, else the response `max-age`. -/
def rsshub_ttl_seconds (rss_feed : RssFeedMeta) (wr : WebResponseM) :
    Option Nat :=
  let ttl_in_minute_str := rss_feed.ttl.getD ""
  if isDecimalString ttl_in_minute_str then
    some (strToNat ttl_in_minute_str * 60)
  else wr.max_age

/-- `_defer_next_check_as_per_server_side_cache`, after the
`assert wr is not None` (callers pass the matched web response, with
`wr.now` already assigned): return `expires` on a Cloudflare hit; else,
for an RSSHub-generated feed with a truthy `updated` string, return
`updated + ttl` when the TTL exceeds 300 seconds, `updated` parses
(`parse_dt` models `web.utils.rfc_2822_8601_to_datetime`) and the result
lies in the future; else `None`. -/
def defer_next_check_as_per_server_side_cache (parse_dt : String → Option Int)
    (cf_cache_status : Option String) (rss_feed : RssFeedMeta)
    (wr : WebResponseM) : Option Int :=
  if cloudflare_hit cf_cache_status wr then wr.expires
  else if rss_feed.generator = some "RSSHub" then
    match rss_feed.updated with
    | none => none
    | some updated_str =>
      if updated_str = "" then none
      else
        match rsshub_ttl_seconds rss_feed wr with
        | none => none
        | some ttl_in_second =>
          if 300 < ttl_in_second then
            match parse_dt updated_str with
            | none => none
            | some updated =>
              if wr.now < updated + (ttl_in_second : Int) then
                some (updated + (ttl_in_second : Int))
              else none
          else none
  else none

/-- Results of the external collaborators for one `_do_monitor_a_feed`
run: active-subscriber and flood-lock facts, the fetch result, the
configured default interval, the HTML space stripper and datetime parser,
the `calculate_update` result on this input, and what
`migrate_to_new_url` would return (`none` ⇒ not a `db.Feed`). -/
structure DetectEnv where
  has_active_subs : Bool
  all_flood_locked : Bool
  wf : WebFeedM
  default_interval : Nat
  strip : String → String
  parse_dt : String → Option Int
  calc_new_hashes : List String
  calc_updated_entries : List String
  migrate_result : Option Feed

/-- Which feed fields have been marked dirty (`feed_updated_fields`, a
Python `set`). -/
structure FeedUpdatedFields where
  error_count : Bool
  etag : Bool
  title : Bool
  last_modified : Bool
  entry_hashes : Bool
  next_check_time : Bool
deriving DecidableEq, Repr

/-- The empty `feed_updated_fields` set. -/
def FeedUpdatedFields.emptySet : FeedUpdatedFields :=
  ⟨false, false, false, false, false, false⟩

/-- State at the end of the `try` body of `_do_monitor_a_feed` (the
`return`s inside the `try` all pass through here before the `finally`):
the mutated feed, the `no_error` flag, the computed
`new_next_check_time`, the dirty-field set, the stat tags recorded so
far, the updated entries when the body ran to its normal end (`none` on
an early return), whether `__deactivate_feed_and_notify_all` was called,
and whether the body raised (only the `assert wr is not None` can). -/
structure BodyResult where
  feed : Feed
  no_error : Bool
  new_next_check_time : Option Int
  dirty : FeedUpdatedFields
  stat : List StatOp
  updated_entries : Option (List String)
  deactivate_called : Bool
  crashed : Bool
deriving Repr

/-- The failure back-off of `_do_monitor_a_feed` (the `error_count >= 10`
branch): with `interval = feed.interval or default_interval` and
`next_check_interval = min(interval, 15) * min(error_count // 10 + 1, 5)`,
defer the next check by `next_check_interval` minutes when that exceeds
`interval`; `error_count` here is the already-incremented value. -/
def failure_backoff (default_interval : Nat) (feed_interval : Option Nat)
    (error_count : Nat) (now : Int) : Option Int :=
  let interval :=
    match feed_interval with
    | some i => if i ≠ 0 then i else default_interval
    | none => default_interval
  let next_check_interval :=
    min interval 15 * min (error_count / 10 + 1) 5
  if interval < next_check_interval then
    some (now + (next_check_interval : Int) * 60)
  else none

/-- The `try` body of `_do_monitor_a_feed` (from the `304` test to the
entry-hash update), given the fetch result and `now`. -/
def monitor_body (E : DetectEnv) (now : Int) (feed : Feed) : BodyResult :=
  let wf := E.wf
  if wf.status = 304 then
    { feed := feed, no_error := true, new_next_check_time := none
      dirty := FeedUpdatedFields.emptySet, stat := [StatOp.cached]
      updated_entries := none, deactivate_called := false, crashed := false }
  else
    match wf.rss_d with
    | none =>
      let feed := { feed with error_count := feed.error_count + 1 }
      let dirty := { FeedUpdatedFields.emptySet with error_count := true }
      if 100 ≤ feed.error_count then
        { feed := feed, no_error := false, new_next_check_time := none
          dirty := dirty, stat := [StatOp.failed], updated_entries := none
          deactivate_called := true, crashed := false }
      else
        let new_nct : Option Int :=
          if 10 ≤ feed.error_count then
            failure_backoff E.default_interval feed.interval feed.error_count
              now
          else none
        { feed := feed, no_error := false, new_next_check_time := new_nct
          dirty := dirty, stat := [StatOp.failed], updated_entries := none
          deactivate_called := false, crashed := false }
    | some rss_d =>
      match wf.web_response with
      | none =>
        -- `assert wr is not None` fails; the `finally` still runs and the
        -- error escapes to the worker.
        { feed := feed, no_error := true, new_next_check_time := none
          dirty := FeedUpdatedFields.emptySet, stat := []
          updated_entries := none, deactivate_called := false
          crashed := true }
      | some wr0 =>
        let wr := { wr0 with now := now }
        let step1 : Feed × FeedUpdatedFields :=
          match wr.etag with
          | some e =>
            if e ≠ "" ∧ some e ≠ feed.etag then
              ({ feed with etag := some e },
               { FeedUpdatedFields.emptySet with etag := true })
            else (feed, FeedUpdatedFields.emptySet)
          | none => (feed, FeedUpdatedFields.emptySet)
        let feed := step1.1
        let dirty := step1.2
        let new_nct :=
          defer_next_check_as_per_server_side_cache E.parse_dt
            wf.cf_cache_status rss_d.feed wr
        if rss_d.entries = [] then
          { feed := feed, no_error := true, new_next_check_time := new_nct
            dirty := dirty, stat := [StatOp.empty], updated_entries := none
            deactivate_called := false, crashed := false }
        else
          let title :=
            if rss_d.feed.title ≠ "" then E.strip rss_d.feed.title else ""
          let step2 : Feed × FeedUpdatedFields :=
            if title ≠ feed.title then
              ({ feed with title := title }, { dirty with title := true })
            else (feed, dirty)
          let feed := step2.1
          let dirty := step2.2
          if E.calc_updated_entries = [] then
            { feed := feed, no_error := true, new_next_check_time := new_nct
              dirty := dirty, stat := [StatOp.not_updated]
              updated_entries := none, deactivate_called := false
              crashed := false }
          else
            let hashes :=
              E.calc_new_hashes.take (max (rss_d.entries.length * 2) 100)
            let feed :=
              { feed with
                last_modified := wr.last_modified
                entry_hashes := if hashes = [] then none else some hashes }
            let dirty :=
              { dirty with last_modified := true, entry_hashes := true }
            { feed := feed, no_error := true, new_next_check_time := new_nct
              dirty := dirty, stat := [], updated_entries :=
                some E.calc_updated_entries
              deactivate_called := false, crashed := false }

/-- Result of the `finally` block: the (possibly migrated) feed, the final
dirty set, and whether `migrate_to_new_url` was invoked. -/
structure FinallyResult where
  feed : Feed
  dirty : FeedUpdatedFields
  migrate_called : Bool
deriving Repr

/-- The `finally` block of `_do_monitor_a_feed`: on `no_error` reset a
positive `error_count` and, when the effective URL differs from
`feed.link`, invoke `migrate_to_new_url` and adopt its returned feed if
one is returned; then update `next_check_time` when the computed value
differs from the stored one. -/
def monitor_finally (E : DetectEnv) (b : BodyResult) : FinallyResult :=
  let feed := b.feed
  let dirty := b.dirty
  let step1 : Feed × FeedUpdatedFields :=
    if b.no_error ∧ 0 < feed.error_count then
      ({ feed with error_count := 0 }, { dirty with error_count := true })
    else (feed, dirty)
  let feed := step1.1
  let dirty := step1.2
  let migrate_called : Bool := b.no_error && decide (E.wf.url ≠ feed.link)
  let feed := if migrate_called then E.migrate_result.getD feed else feed
  let step3 : Feed × FeedUpdatedFields :=
    if b.new_next_check_time ≠ feed.next_check_time then
      ({ feed with next_check_time := b.new_next_check_time },
       { dirty with next_check_time := true })
    else (feed, dirty)
  { feed := step3.1, dirty := step3.2, migrate_called := migrate_called }

/-- The observable outcome of one `_do_monitor_a_feed` run: the feed as it
stands afterwards, the stat tags recorded (in call order), the saved
field set (`none` ⇒ `feed.save` was not called), whether
`update_interval`, `migrate_to_new_url` and
`__deactivate_feed_and_notify_all` were invoked, the entries handed to
the notification fan-out (in fan-out order), and whether the run raised. -/
structure DetectResult where
  feed : Feed
  stat : List StatOp
  saved : Option FeedUpdatedFields
  update_interval_called : Bool
  migrate_called : Bool
  deactivate_called : Bool
  fanout : List String
  crashed : Bool
deriving DecidableEq, Repr

/-- The skip-by-schedule guard: `feed.next_check_time and now <
feed.next_check_time` (a datetime is always truthy). -/
def skip_by_schedule (now : Int) (feed : Feed) : Bool :=
  match feed.next_check_time with
  | some t => decide (now < t)
  | none => false

/-- `_do_monitor_a_feed`: the three skip guards, then the `try` body, the
`finally` block (persisting exactly the dirty fields), and on normal
completion the fan-out over `reversed(updated_entries)` followed by
`stat.updated()`. -/
def do_monitor_a_feed (E : DetectEnv) (now : Int) (feed : Feed) :
    DetectResult :=
  if skip_by_schedule now feed then
    { feed := feed, stat := [StatOp.skipped], saved := none
      update_interval_called := false, migrate_called := false
      deactivate_called := false, fanout := [], crashed := false }
  else if E.has_active_subs = false then
    { feed := feed, stat := [StatOp.skipped], saved := none
      update_interval_called := true, migrate_called := false
      deactivate_called := false, fanout := [], crashed := false }
  else if E.all_flood_locked then
    { feed := feed, stat := [StatOp.skipped], saved := none
      update_interval_called := false, migrate_called := false
      deactivate_called := false, fanout := [], crashed := false }
  else
    let b := monitor_body E now feed
    let fin := monitor_finally E b
    let saved :=
      if fin.dirty ≠ FeedUpdatedFields.emptySet then some fin.dirty else none
    match b.updated_entries with
    | some entries =>
      { feed := fin.feed, stat := b.stat ++ [StatOp.updated], saved := saved
        update_interval_called := false, migrate_called := fin.migrate_called
        deactivate_called := b.deactivate_called
        fanout := entries.reverse, crashed := b.crashed }
    | none =>
      { feed := fin.feed, stat := b.stat, saved := saved
        update_interval_called := false, migrate_called := fin.migrate_called
        deactivate_called := b.deactivate_called, fanout := []
        crashed := b.crashed }

/-! ### Helper lemmas -/

theorem lock_feed_id_queue (mi : Nat) (st : MonitorState) (f : Int) :
    (lock_feed_id mi st f).queue = st.queue := by
  unfold lock_feed_id; split <;> rfl

theorem lock_feed_id_stat (mi : Nat) (st : MonitorState) (f : Int) :
    (lock_feed_id mi st f).stat = st.stat := by
  unfold lock_feed_id; split <;> rfl

theorem or_in_progress_ne_empty (x : TaskState) :
    x.or TaskState.IN_PROGRESS ≠ TaskState.EMPTY := by
  simp [TaskState.or, TaskState.IN_PROGRESS, TaskState.EMPTY]

theorem apply_stat_op_sum_invariant (op : StatOp) (s : MonitoringStat)
    (h : sum_invariant s.counter_tier2) :
    sum_invariant (apply_stat_op op s).counter_tier2 := by
  cases op <;>
    simp only [apply_stat_op, MonitoringStat.not_updated, MonitoringStat.cached,
      MonitoringStat.empty, MonitoringStat.failed, MonitoringStat.updated,
      MonitoringStat.skipped, MonitoringStat.timeout, MonitoringStat.cancelled,
      MonitoringStat.unknown_error, MonitoringStat.timeout_unknown_error,
      MonitoringStat.deferred, MonitoringStat.resubmitted,
      MonitoringStat._sum, sum_invariant] at h ⊢ <;>
    omega

/-! ### Claim C8 -/

/-- Claim C8 (confirmed): each of `cached` and `empty` increments its own
tier-2 counter, `not_updated` and `SUM` by exactly 1; every other tag
method increments its own tier-2 counter and `SUM` by exactly 1; and over
any sequence of tag-method calls from a fresh `MonitoringStat`, `SUM`
equals `not_updated + failed + updated + skipped + timeout + cancelled +
unknown_error + timeout_unknown_error + deferred + resubmitted`. -/
theorem claim_C8 :
    (∀ s : MonitoringStat,
      (s.cached.counter_tier2.cached = s.counter_tier2.cached + 1 ∧
        s.cached.counter_tier2.not_updated = s.counter_tier2.not_updated + 1 ∧
        s.cached.counter_tier2.SUM = s.counter_tier2.SUM + 1) ∧
      (s.empty.counter_tier2.empty = s.counter_tier2.empty + 1 ∧
        s.empty.counter_tier2.not_updated = s.counter_tier2.not_updated + 1 ∧
        s.empty.counter_tier2.SUM = s.counter_tier2.SUM + 1) ∧
      (s.not_updated.counter_tier2.not_updated =
          s.counter_tier2.not_updated + 1 ∧
        s.not_updated.counter_tier2.SUM = s.counter_tier2.SUM + 1) ∧
      (s.failed.counter_tier2.failed = s.counter_tier2.failed + 1 ∧
        s.failed.counter_tier2.SUM = s.counter_tier2.SUM + 1) ∧
      (s.updated.counter_tier2.updated = s.counter_tier2.updated + 1 ∧
        s.updated.counter_tier2.SUM = s.counter_tier2.SUM + 1) ∧
      (s.skipped.counter_tier2.skipped = s.counter_tier2.skipped + 1 ∧
        s.skipped.counter_tier2.SUM = s.counter_tier2.SUM + 1) ∧
      (s.timeout.counter_tier2.timeout = s.counter_tier2.timeout + 1 ∧
        s.timeout.counter_tier2.SUM = s.counter_tier2.SUM + 1) ∧
      (s.cancelled.counter_tier2.cancelled = s.counter_tier2.cancelled + 1 ∧
        s.cancelled.counter_tier2.SUM = s.counter_tier2.SUM + 1) ∧
      (s.unknown_error.counter_tier2.unknown_error =
          s.counter_tier2.unknown_error + 1 ∧
        s.unknown_error.counter_tier2.SUM = s.counter_tier2.SUM + 1) ∧
      (s.timeout_unknown_error.counter_tier2.timeout_unknown_error =
          s.counter_tier2.timeout_unknown_error + 1 ∧
        s.timeout_unknown_error.counter_tier2.SUM =
          s.counter_tier2.SUM + 1) ∧
      (s.deferred.counter_tier2.deferred = s.counter_tier2.deferred + 1 ∧
        s.deferred.counter_tier2.SUM = s.counter_tier2.SUM + 1) ∧
      (s.resubmitted.counter_tier2.resubmitted =
          s.counter_tier2.resubmitted + 1 ∧
        s.resubmitted.counter_tier2.SUM = s.counter_tier2.SUM + 1)) ∧
    (∀ ops : List StatOp,
      sum_invariant (apply_stat_ops ops MonitoringStat.init).counter_tier2) := by
  constructor
  · intro s
    simp [MonitoringStat.cached, MonitoringStat.empty,
      MonitoringStat.not_updated, MonitoringStat.failed,
      MonitoringStat.updated, MonitoringStat.skipped, MonitoringStat.timeout,
      MonitoringStat.cancelled, MonitoringStat.unknown_error,
      MonitoringStat.timeout_unknown_error, MonitoringStat.deferred,
      MonitoringStat.resubmitted, MonitoringStat._sum]
  · intro ops
    have key : ∀ t : MonitoringStat, sum_invariant t.counter_tier2 →
        sum_invariant (apply_stat_ops ops t).counter_tier2 := by
      induction ops with
      | nil => intro t h; exact h
      | cons op rest ih =>
        intro t h
        exact ih _ (apply_stat_op_sum_invariant op t h)
    exact key _ (by simp [MonitoringStat.init, MonitoringCounter.init,
      sum_invariant])

/-! ### Claim C3 -/

/-- Claim C3 (corrected): the handler checks the counter before
incrementing it, so starting from an absent entry the first 5 consecutive
blocked-style failures only raise the counter (`(n % 6, n / 6)` gives the
counter value and the number of `unsub_all_and_leave_chat` invocations
after `n` consecutive failures: exactly one invocation happens on the 6th
failure, which also deletes the counter entry); a concurrent invocation
that finds the per-user lock held returns immediately without counting. -/
theorem claim_C3 :
    (∀ n : Nat, run_blocked_failures n = (n % 6, n / 6)) ∧
    (∀ c : Nat, locked_unsub_all_and_leave_chat true c = (c, false)) := by
  constructor
  · intro n
    induction n with
    | zero => rfl
    | succ n ih =>
      by_cases h : n % 6 < 5 <;>
        simp [run_blocked_failures, ih, locked_unsub_all_and_leave_chat, h,
          Prod.ext_iff] <;>
        omega
  · intro c; rfl

/-- Claim C3 counterexample: after exactly 5 consecutive blocked-style
failures (lock free each time, starting from an absent counter entry)
`unsub_all_and_leave_chat` has been invoked 0 times — not once as the
claim states — and the counter stands at 5; the invocation happens on the
6th failure. -/
theorem claim_C3_counterexample :
    (run_blocked_failures 5).2 = 0 ∧ (run_blocked_failures 5).1 = 5 ∧
    (run_blocked_failures 6).2 = 1 ∧ (run_blocked_failures 6).1 = 0 := by
  decide

/-! ### Claim C4 -/

/-- Claim C4 (amended): for a feed whose task state is non-empty and not
exactly `{DEFERRED}` at the moment of `submit_feed`, the queue is not
appended to, the DEFERRED bit becomes set, the `deferred` counter is
incremented by exactly 1, and no unlock timer is scheduled.  (The claim's
"including exactly `{DEFERRED}`" case is refuted separately: there the
source logs a warning and falls through to enqueue.) -/
theorem claim_C4 (minimal_interval : Nat) (st : MonitorState) (f : Int)
    (h1 : st.task_defer_map f ≠ TaskState.EMPTY)
    (h2 : st.task_defer_map f ≠ TaskState.DEFERRED) :
    (submit_feed minimal_interval st f).queue = st.queue ∧
    (submit_feed minimal_interval st f).task_defer_map f =
      (st.task_defer_map f).or TaskState.DEFERRED ∧
    ((submit_feed minimal_interval st f).task_defer_map f).deferred = true ∧
    (submit_feed minimal_interval st f).stat.counter_tier2.deferred =
      st.stat.counter_tier2.deferred + 1 ∧
    (submit_feed minimal_interval st f).timers = st.timers := by
  simp only [TaskState.DEFERRED] at h2
  simp [submit_feed, h1, h2, mapUpdate, MonitoringStat.deferred,
    MonitoringStat._sum, TaskState.or, TaskState.DEFERRED]

/-- Concrete state for the C4 witness: feed 2 is `{IN_PROGRESS}`. -/
def stC4a : MonitorState :=
  { stat := MonitoringStat.init, queue := []
    task_defer_map := fun i =>
      if i = 2 then TaskState.IN_PROGRESS else TaskState.EMPTY
    timers := [] }

/-- Claim C4 witness: the amended claim evaluated with
`minimal_interval = 5` on a feed whose state is `{IN_PROGRESS}`. -/
theorem claim_C4_witness :
    (stC4a.task_defer_map 2 ≠ TaskState.EMPTY ∧
      stC4a.task_defer_map 2 ≠ TaskState.DEFERRED) ∧
    ((submit_feed 5 stC4a 2).queue = stC4a.queue ∧
      (submit_feed 5 stC4a 2).task_defer_map 2 =
        (stC4a.task_defer_map 2).or TaskState.DEFERRED ∧
      ((submit_feed 5 stC4a 2).task_defer_map 2).deferred = true ∧
      (submit_feed 5 stC4a 2).stat.counter_tier2.deferred =
        stC4a.stat.counter_tier2.deferred + 1 ∧
      (submit_feed 5 stC4a 2).timers = stC4a.timers) :=
  ⟨⟨by decide, by decide⟩, claim_C4 5 stC4a 2 (by decide) (by decide)⟩

/-- Concrete state for the C4 counterexample: feed 3 is exactly
`{DEFERRED}`. -/
def stC4b : MonitorState :=
  { stat := MonitoringStat.init, queue := []
    task_defer_map := fun i =>
      if i = 3 then TaskState.DEFERRED else TaskState.EMPTY
    timers := [] }

/-- Claim C4 counterexample: with the state exactly `{DEFERRED}` (which is
non-empty), `submit_feed` appends to the queue, does not count `deferred`,
and overwrites the state to `{LOCKED}` (so the DEFERRED bit ends up
cleared, not set) — refuting the claim's "including in the case where the
state is exactly `{DEFERRED}`". -/
theorem claim_C4_counterexample :
    stC4b.task_defer_map 3 ≠ TaskState.EMPTY ∧
    (submit_feed 5 stC4b 3).queue = stC4b.queue ++ [3] ∧
    (submit_feed 5 stC4b 3).stat.counter_tier2.deferred =
      stC4b.stat.counter_tier2.deferred ∧
    ((submit_feed 5 stC4b 3).task_defer_map 3).deferred = false := by
  decide

/-! ### Claim C10 -/

/-- Claim C10 (confirmed): a monitor-worker run for a feed id whose record
is missing overwrites the feed's entire task state to `EMPTY` and returns
with the statistics, queue and timers untouched (so any LOCKED or DEFERRED
bit is discarded without the resubmission path firing and a pending
deferred submission is dropped); a still-scheduled LOCKED auto-erase that
later fires on the now-empty state is a logged no-op. -/
theorem claim_C10 (minimal_interval : Nat) (st : MonitorState) (f : Int)
    (o : MonitorRunOutcome) :
    (do_monitor_task minimal_interval st f false o).task_defer_map f =
      TaskState.EMPTY ∧
    (do_monitor_task minimal_interval st f false o).queue = st.queue ∧
    (do_monitor_task minimal_interval st f false o).timers = st.timers ∧
    (do_monitor_task minimal_interval st f false o).stat = st.stat ∧
    erase_state_for_feed_id minimal_interval
        (do_monitor_task minimal_interval st f false o) f TaskState.LOCKED =
      do_monitor_task minimal_interval st f false o := by
  refine ⟨?_, ?_, ?_, ?_, ?_⟩ <;>
    simp [do_monitor_task, mark_in_progress, mapUpdate,
      erase_state_for_feed_id]

/-! ### Claim C5 -/

theorem mapUpdate_self (m : Int → TaskState) (k : Int) (v : TaskState) :
    mapUpdate m k v k = v := by
  simp [mapUpdate]

theorem erase_state_spec (mi : Nat) (st : MonitorState) (f : Int)
    (flag : TaskState) :
    (st.task_defer_map f = TaskState.EMPTY →
      erase_state_for_feed_id mi st f flag = st) ∧
    (st.task_defer_map f ≠ TaskState.EMPTY →
      ((st.task_defer_map f).erase flag = TaskState.DEFERRED →
        (erase_state_for_feed_id mi st f flag).queue = st.queue ++ [f] ∧
        (erase_state_for_feed_id mi st f flag).stat = st.stat.resubmitted ∧
        (erase_state_for_feed_id mi st f flag).task_defer_map =
          (lock_feed_id mi st f).task_defer_map) ∧
      ((st.task_defer_map f).erase flag ≠ TaskState.DEFERRED →
        erase_state_for_feed_id mi st f flag =
          { st with
            task_defer_map :=
              mapUpdate st.task_defer_map f
                ((st.task_defer_map f).erase flag) })) := by
  by_cases h1 : st.task_defer_map f = TaskState.EMPTY
  · refine ⟨fun _ => ?_, fun h => absurd h1 h⟩
    simp [erase_state_for_feed_id, h1]
  · refine ⟨fun h => absurd h h1, fun _ => ⟨fun h2 => ?_, fun h2 => ?_⟩⟩
    · refine ⟨?_, ?_, ?_⟩ <;>
        simp [erase_state_for_feed_id, h1, h2, lock_feed_id_queue,
          lock_feed_id_stat]
    · simp [erase_state_for_feed_id, h1, h2]

theorem classify_worker_outcome_counts (o : MonitorRunOutcome)
    (s : MonitoringStat) :
    (classify_worker_outcome o s).counter_tier2.timeout =
      s.counter_tier2.timeout +
        (if o.internalError = false ∧ o.timedOut = true ∧
            o.taskExc = some ExcKind.cancelledExc then 1 else 0) ∧
    (classify_worker_outcome o s).counter_tier2.timeout_unknown_error =
      s.counter_tier2.timeout_unknown_error +
        (if o.internalError = false ∧ o.timedOut = true ∧
            o.taskExc = some ExcKind.otherExc then 1 else 0) ∧
    (classify_worker_outcome o s).counter_tier2.cancelled =
      s.counter_tier2.cancelled +
        (if o.internalError = false ∧ o.timedOut = false ∧
            o.taskExc = some ExcKind.cancelledExc then 1 else 0) ∧
    (classify_worker_outcome o s).counter_tier2.unknown_error =
      s.counter_tier2.unknown_error +
        (if o.internalError = true ∨ (o.internalError = false ∧
            o.timedOut = false ∧ o.taskExc = some ExcKind.otherExc)
          then 1 else 0) ∧
    (classify_worker_outcome o s).counter_tier2.resubmitted =
      s.counter_tier2.resubmitted := by
  rcases o with ⟨tdo, exc, ie⟩
  cases ie <;> cases tdo <;> rcases exc with _ | k
  all_goals try cases k
  all_goals
    simp [classify_worker_outcome, MonitoringStat.timeout,
      MonitoringStat.timeout_unknown_error, MonitoringStat.cancelled,
      MonitoringStat.unknown_error, MonitoringStat._sum]

theorem resubmitted_keeps_worker_counters (s : MonitoringStat) :
    s.resubmitted.counter_tier2.timeout = s.counter_tier2.timeout ∧
    s.resubmitted.counter_tier2.timeout_unknown_error =
      s.counter_tier2.timeout_unknown_error ∧
    s.resubmitted.counter_tier2.cancelled = s.counter_tier2.cancelled ∧
    s.resubmitted.counter_tier2.unknown_error =
      s.counter_tier2.unknown_error ∧
    s.resubmitted.counter_tier2.resubmitted =
      s.counter_tier2.resubmitted + 1 := by
  simp [MonitoringStat.resubmitted, MonitoringStat._sum]

/-- Claim C5 (confirmed): in a monitor-worker run whose feed record
resolves, `timeout` is counted exactly when the run timed out and the
cancelled detector's unwind raised the cooperative-cancel exception,
`timeout_unknown_error` when the unwind raised anything else, `cancelled`
when the detector finished but raised the cooperative-cancel exception,
`unknown_error` when it finished raising anything else or the worker
itself failed internally; and in every such case the worker finally
applies `erase(feed_id, IN_PROGRESS)`: outside the resubmission corner
the IN_PROGRESS bit is cleared in the map and nothing is enqueued, and in
the resubmission corner (remaining flags exactly `{DEFERRED}`) the id is
enqueued once with `resubmitted` counted once. -/
theorem claim_C5 (mi : Nat) (st : MonitorState) (f : Int)
    (o : MonitorRunOutcome) :
    (do_monitor_task mi st f true o).stat.counter_tier2.timeout =
      st.stat.counter_tier2.timeout +
        (if o.internalError = false ∧ o.timedOut = true ∧
            o.taskExc = some ExcKind.cancelledExc then 1 else 0) ∧
    (do_monitor_task mi st f true o).stat.counter_tier2.timeout_unknown_error =
      st.stat.counter_tier2.timeout_unknown_error +
        (if o.internalError = false ∧ o.timedOut = true ∧
            o.taskExc = some ExcKind.otherExc then 1 else 0) ∧
    (do_monitor_task mi st f true o).stat.counter_tier2.cancelled =
      st.stat.counter_tier2.cancelled +
        (if o.internalError = false ∧ o.timedOut = false ∧
            o.taskExc = some ExcKind.cancelledExc then 1 else 0) ∧
    (do_monitor_task mi st f true o).stat.counter_tier2.unknown_error =
      st.stat.counter_tier2.unknown_error +
        (if o.internalError = true ∨ (o.internalError = false ∧
            o.timedOut = false ∧ o.taskExc = some ExcKind.otherExc)
          then 1 else 0) ∧
    (((st.task_defer_map f).or TaskState.IN_PROGRESS).erase
        TaskState.IN_PROGRESS ≠ TaskState.DEFERRED →
      (do_monitor_task mi st f true o).task_defer_map f =
        ((st.task_defer_map f).or TaskState.IN_PROGRESS).erase
          TaskState.IN_PROGRESS ∧
      (do_monitor_task mi st f true o).queue = st.queue ∧
      (do_monitor_task mi st f true o).stat.counter_tier2.resubmitted =
        st.stat.counter_tier2.resubmitted) ∧
    (((st.task_defer_map f).or TaskState.IN_PROGRESS).erase
        TaskState.IN_PROGRESS = TaskState.DEFERRED →
      (do_monitor_task mi st f true o).queue = st.queue ++ [f] ∧
      (do_monitor_task mi st f true o).stat.counter_tier2.resubmitted =
        st.stat.counter_tier2.resubmitted + 1) := by
  obtain ⟨hc1, hc2, hc3, hc4, hc5⟩ := classify_worker_outcome_counts o st.stat
  have hd : do_monitor_task mi st f true o =
      erase_state_for_feed_id mi
        { stat := classify_worker_outcome o st.stat
          queue := st.queue
          task_defer_map :=
            mapUpdate st.task_defer_map f
              ((st.task_defer_map f).or TaskState.IN_PROGRESS)
          timers := st.timers } f TaskState.IN_PROGRESS := rfl
  obtain ⟨-, hne⟩ :=
    erase_state_spec mi
      { stat := classify_worker_outcome o st.stat
        queue := st.queue
        task_defer_map :=
          mapUpdate st.task_defer_map f
            ((st.task_defer_map f).or TaskState.IN_PROGRESS)
        timers := st.timers } f TaskState.IN_PROGRESS
  simp only [mapUpdate_self] at hne
  obtain ⟨hres, hnores⟩ := hne (or_in_progress_ne_empty _)
  by_cases hdef : ((st.task_defer_map f).or TaskState.IN_PROGRESS).erase
      TaskState.IN_PROGRESS = TaskState.DEFERRED
  · obtain ⟨hq, hs, -⟩ := hres hdef
    obtain ⟨hr1, hr2, hr3, hr4, hr5⟩ :=
      resubmitted_keeps_worker_counters (classify_worker_outcome o st.stat)
    rw [hd]
    refine ⟨?_, ?_, ?_, ?_, fun h => absurd hdef h, fun _ => ⟨hq, ?_⟩⟩
    · rw [hs]; exact hr1.trans hc1
    · rw [hs]; exact hr2.trans hc2
    · rw [hs]; exact hr3.trans hc3
    · rw [hs]; exact hr4.trans hc4
    · rw [hs, hr5, hc5]
  · have heq := hnores hdef
    rw [hd, heq]
    refine ⟨hc1, hc2, hc3, hc4, fun _ => ⟨?_, rfl, hc5⟩,
      fun h => absurd h hdef⟩
    exact mapUpdate_self _ _ _

/-- All-empty monitor state used by the C5 witness. -/
def stW5 : MonitorState :=
  { stat := MonitoringStat.init, queue := []
    task_defer_map := fun _ => TaskState.EMPTY, timers := [] }

/-- Claim C5 witness: a timed-out run whose cancelled detector unwinds
with the cooperative-cancel exception, on a feed with no other flags:
`timeout` is counted once and the IN_PROGRESS bit ends up cleared. -/
theorem claim_C5_witness :
    ((stW5.task_defer_map 4).or TaskState.IN_PROGRESS).erase
        TaskState.IN_PROGRESS ≠ TaskState.DEFERRED ∧
    (do_monitor_task 0 stW5 4 true
        { timedOut := true, taskExc := some ExcKind.cancelledExc
          internalError := false }).stat.counter_tier2.timeout =
      stW5.stat.counter_tier2.timeout + 1 ∧
    (do_monitor_task 0 stW5 4 true
        { timedOut := true, taskExc := some ExcKind.cancelledExc
          internalError := false }).task_defer_map 4 =
      ((stW5.task_defer_map 4).or TaskState.IN_PROGRESS).erase
        TaskState.IN_PROGRESS :=
  ⟨by decide,
   by
    simpa using
      (claim_C5 0 stW5 4
        { timedOut := true, taskExc := some ExcKind.cancelledExc
          internalError := false }).1,
   ((claim_C5 0 stW5 4
        { timedOut := true, taskExc := some ExcKind.cancelledExc
          internalError := false }).2.2.2.2.1 (by decide)).1⟩

/-! ### Claim C1 -/

theorem do_monitor_task_keeps_resubmitted (mi : Nat) (r : MonitorState)
    (f : Int) (o : MonitorRunOutcome)
    (h : ((r.task_defer_map f).or TaskState.IN_PROGRESS).erase
        TaskState.IN_PROGRESS ≠ TaskState.DEFERRED) :
    (do_monitor_task mi r f true o).stat.counter_tier2.resubmitted =
      r.stat.counter_tier2.resubmitted := by
  obtain ⟨-, -, -, -, hc5⟩ := classify_worker_outcome_counts o r.stat
  have hd : do_monitor_task mi r f true o =
      erase_state_for_feed_id mi
        { stat := classify_worker_outcome o r.stat
          queue := r.queue
          task_defer_map :=
            mapUpdate r.task_defer_map f
              ((r.task_defer_map f).or TaskState.IN_PROGRESS)
          timers := r.timers } f TaskState.IN_PROGRESS := rfl
  obtain ⟨-, h2⟩ :=
    erase_state_spec mi
      { stat := classify_worker_outcome o r.stat
        queue := r.queue
        task_defer_map :=
          mapUpdate r.task_defer_map f
            ((r.task_defer_map f).or TaskState.IN_PROGRESS)
        timers := r.timers } f TaskState.IN_PROGRESS
  simp only [mapUpdate_self] at h2
  obtain ⟨-, hnores⟩ := h2 (or_in_progress_ne_empty _)
  rw [hd, hnores h]
  exact hc5

/-- Claim C1 (amended): when `minimal_interval` is at least 2 (so that
`_lock_feed_id` takes effect), erasing the single non-DEFERRED flag of a
feed whose state is DEFERRED plus exactly one other flag re-locks the
feed (state becomes exactly `{LOCKED}`), enqueues its id exactly once,
increments `resubmitted` by exactly 1, and a later worker run for that
feed — terminating with any outcome — does not increment `resubmitted`
again.  (For `minimal_interval ≤ 1` the claim fails: see the
counterexample.) -/
theorem claim_C1 (mi : Nat) (st : MonitorState) (f : Int) (other : TaskState)
    (hmi : 2 ≤ mi)
    (hother : other = TaskState.LOCKED ∨ other = TaskState.IN_PROGRESS)
    (hstate : st.task_defer_map f = TaskState.DEFERRED.or other) :
    (erase_state_for_feed_id mi st f other).task_defer_map f =
      TaskState.LOCKED ∧
    (erase_state_for_feed_id mi st f other).queue = st.queue ++ [f] ∧
    (erase_state_for_feed_id mi st f other).stat.counter_tier2.resubmitted =
      st.stat.counter_tier2.resubmitted + 1 ∧
    ∀ o : MonitorRunOutcome,
      (do_monitor_task mi (erase_state_for_feed_id mi st f other) f true
          o).stat.counter_tier2.resubmitted =
        (erase_state_for_feed_id mi st f
            other).stat.counter_tier2.resubmitted := by
  have hne : st.task_defer_map f ≠ TaskState.EMPTY := by
    rcases hother with h | h <;> subst h <;> rw [hstate] <;> decide
  have hdef : (st.task_defer_map f).erase other = TaskState.DEFERRED := by
    rcases hother with h | h <;> subst h <;> rw [hstate] <;> decide
  obtain ⟨-, h2⟩ := erase_state_spec mi st f other
  obtain ⟨hres, -⟩ := h2 hne
  obtain ⟨hq, hs, hm⟩ := hres hdef
  have hmi' : ¬ mi ≤ 1 := by omega
  have hlockmap : (lock_feed_id mi st f).task_defer_map =
      mapUpdate st.task_defer_map f TaskState.LOCKED := by
    simp [lock_feed_id, hmi']
  have hrmap : (erase_state_for_feed_id mi st f other).task_defer_map f =
      TaskState.LOCKED := by
    rw [hm, hlockmap, mapUpdate_self]
  refine ⟨hrmap, hq, ?_, ?_⟩
  · rw [hs]; simp [MonitoringStat.resubmitted, MonitoringStat._sum]
  · intro o
    refine do_monitor_task_keeps_resubmitted mi _ f o ?_
    rw [hrmap]; decide

/-- Concrete state for the C1 witness: feed 7 is `{DEFERRED,
IN_PROGRESS}`. -/
def stW1 : MonitorState :=
  { stat := MonitoringStat.init, queue := []
    task_defer_map := fun i =>
      if i = 7 then TaskState.DEFERRED.or TaskState.IN_PROGRESS
      else TaskState.EMPTY
    timers := [] }

/-- Claim C1 witness: `minimal_interval = 2`, feed 7 in `{DEFERRED,
IN_PROGRESS}`; the worker's final erase of IN_PROGRESS re-locks, enqueues
once, counts `resubmitted` once, and a subsequent clean worker run does
not resubmit again. -/
theorem claim_C1_witness :
    (2 ≤ 2 ∧
      stW1.task_defer_map 7 = TaskState.DEFERRED.or TaskState.IN_PROGRESS) ∧
    (erase_state_for_feed_id 2 stW1 7 TaskState.IN_PROGRESS).task_defer_map 7 =
      TaskState.LOCKED ∧
    (erase_state_for_feed_id 2 stW1 7 TaskState.IN_PROGRESS).queue =
      stW1.queue ++ [7] ∧
    (erase_state_for_feed_id 2 stW1 7
        TaskState.IN_PROGRESS).stat.counter_tier2.resubmitted =
      stW1.stat.counter_tier2.resubmitted + 1 ∧
    (do_monitor_task 2 (erase_state_for_feed_id 2 stW1 7 TaskState.IN_PROGRESS)
        7 true { timedOut := false, taskExc := none
                 internalError := false }).stat.counter_tier2.resubmitted =
      (erase_state_for_feed_id 2 stW1 7
          TaskState.IN_PROGRESS).stat.counter_tier2.resubmitted :=
  ⟨⟨by decide, by decide⟩,
   (claim_C1 2 stW1 7 TaskState.IN_PROGRESS (by decide) (Or.inr rfl)
      (by decide)).1,
   (claim_C1 2 stW1 7 TaskState.IN_PROGRESS (by decide) (Or.inr rfl)
      (by decide)).2.1,
   (claim_C1 2 stW1 7 TaskState.IN_PROGRESS (by decide) (Or.inr rfl)
      (by decide)).2.2.1,
   (claim_C1 2 stW1 7 TaskState.IN_PROGRESS (by decide) (Or.inr rfl)
      (by decide)).2.2.2
     { timedOut := false, taskExc := none, internalError := false }⟩

/-- Concrete state for the C1 counterexample: feed 1 is `{DEFERRED,
IN_PROGRESS}` and `minimal_interval = 1`. -/
def stC1 : MonitorState :=
  { stat := MonitoringStat.init, queue := []
    task_defer_map := fun i =>
      if i = 1 then TaskState.DEFERRED.or TaskState.IN_PROGRESS
      else TaskState.EMPTY
    timers := [] }

/-- Claim C1 counterexample: with `minimal_interval = 1` (a configuration
the claim explicitly includes), erasing the IN_PROGRESS flag of feed 1
(state `{DEFERRED, IN_PROGRESS}`) does resubmit once, but `_lock_feed_id`
is a no-op, so the feed is not re-locked (the stale state survives) and
one single later worker run for feed 1 — terminating cleanly with no new
submission in between — drives `resubmitted` to 2: a further spurious
resubmission arising from that single erase. -/
theorem claim_C1_counterexample :
    (erase_state_for_feed_id 1 stC1 1
        TaskState.IN_PROGRESS).stat.counter_tier2.resubmitted = 1 ∧
    ((erase_state_for_feed_id 1 stC1 1
        TaskState.IN_PROGRESS).task_defer_map 1).locked = false ∧
    (erase_state_for_feed_id 1 stC1 1 TaskState.IN_PROGRESS).task_defer_map 1 ≠
      TaskState.LOCKED ∧
    (do_monitor_task 1 (erase_state_for_feed_id 1 stC1 1 TaskState.IN_PROGRESS)
        1 true { timedOut := false, taskExc := none
                 internalError := false }).stat.counter_tier2.resubmitted =
      2 := by
  decide

/-! ### Claim C2 -/

/-- Claim C2 (amended): a 304 response records exactly the cached
statistics (`cached`, `not_updated`, `SUM` each +1) and nothing else, and
— provided `error_count` is already 0, the fetched url equals `feed.link`
and no (stale) `next_check_time` is stored — mutates no feed field,
issues no save and invokes no migration.  Without those provisos the
`finally` block still runs after the 304 return and resets a positive
`error_count`, migrates a differing url, clears a stale
`next_check_time`, and saves those fields (see the counterexample). -/
theorem claim_C2 :
    (∀ (E : DetectEnv) (now : Int) (feed : Feed),
      E.has_active_subs = true → E.all_flood_locked = false →
      E.wf.status = 304 → feed.error_count = 0 → E.wf.url = feed.link →
      feed.next_check_time = none →
      do_monitor_a_feed E now feed =
        { feed := feed, stat := [StatOp.cached], saved := none
          update_interval_called := false, migrate_called := false
          deactivate_called := false, fanout := [], crashed := false }) ∧
    (∀ s : MonitoringStat,
      (apply_stat_ops [StatOp.cached] s).counter_tier2.cached =
        s.counter_tier2.cached + 1 ∧
      (apply_stat_ops [StatOp.cached] s).counter_tier2.not_updated =
        s.counter_tier2.not_updated + 1 ∧
      (apply_stat_ops [StatOp.cached] s).counter_tier2.SUM =
        s.counter_tier2.SUM + 1) := by
  constructor
  · intro E now feed h1 h2 h3 h4 h5 h6
    simp [do_monitor_a_feed, skip_by_schedule, h1, h2, h3, h4, h5, h6,
      monitor_body, monitor_finally, FeedUpdatedFields.emptySet]
  · intro s
    simp [apply_stat_ops, apply_stat_op, MonitoringStat.cached,
      MonitoringStat.not_updated, MonitoringStat._sum]

/-- Feed for the C2 witness (`error_count = 0`, no stored
`next_check_time`, url unchanged). -/
def feedW2 : Feed :=
  { id := 1, link := "http://example.org/feed", title := "t", etag := none
    last_modified := none, updated_at := 0, entry_hashes := none
    error_count := 0, next_check_time := none, interval := none }

/-- Environment for the C2 witness: a 304 response from the same url. -/
def envW2 : DetectEnv :=
  { has_active_subs := true, all_flood_locked := false
    wf := { status := 304, rss_d := none, web_response := none
            url := "http://example.org/feed", cf_cache_status := none }
    default_interval := 10, strip := fun s => s, parse_dt := fun _ => none
    calc_new_hashes := [], calc_updated_entries := [], migrate_result := none }

/-- Claim C2 witness: the amended claim evaluated on a concrete clean
304 run. -/
theorem claim_C2_witness :
    (envW2.has_active_subs = true ∧ envW2.all_flood_locked = false ∧
      envW2.wf.status = 304 ∧ feedW2.error_count = 0 ∧
      envW2.wf.url = feedW2.link ∧ feedW2.next_check_time = none) ∧
    do_monitor_a_feed envW2 0 feedW2 =
      { feed := feedW2, stat := [StatOp.cached], saved := none
        update_interval_called := false, migrate_called := false
        deactivate_called := false, fanout := [], crashed := false } :=
  ⟨⟨rfl, rfl, rfl, rfl, rfl, rfl⟩,
   claim_C2.1 envW2 0 feedW2 rfl rfl rfl rfl rfl rfl⟩

/-- Feed for the C2 counterexample: three consecutive prior failures. -/
def feedC2 : Feed :=
  { id := 1, link := "http://example.org/feed", title := "t", etag := none
    last_modified := none, updated_at := 0, entry_hashes := none
    error_count := 3, next_check_time := none, interval := none }

/-- Environment for the C2 counterexample: a 304 response from the same
url. -/
def envC2 : DetectEnv :=
  { has_active_subs := true, all_flood_locked := false
    wf := { status := 304, rss_d := none, web_response := none
            url := "http://example.org/feed", cf_cache_status := none }
    default_interval := 10, strip := fun s => s, parse_dt := fun _ => none
    calc_new_hashes := [], calc_updated_entries := [], migrate_result := none }

/-- Claim C2 counterexample: a 304 response on a feed with
`error_count = 3` resets `error_count` to 0 in the `finally` block and
saves the field, refuting "no feed field is mutated or persisted ... even
when error_count > 0". -/
theorem claim_C2_counterexample :
    feedC2.error_count = 3 ∧ envC2.wf.status = 304 ∧
    (do_monitor_a_feed envC2 0 feedC2).feed.error_count = 0 ∧
    (do_monitor_a_feed envC2 0 feedC2).saved =
      some { FeedUpdatedFields.emptySet with error_count := true } := by
  decide

/-! ### Claim C6 -/

/-- Claim C6 (confirmed): a failed fetch whose incremented `error_count`
lands in `[10, 100)` increments `error_count`, records exactly
`stat.failed` (which bumps the `failed` and `SUM` counters by 1 each),
does not deactivate, and sets `next_check_time` to
`now + candidate minutes` if and only if
`candidate = min(interval', 15) * min(error_count // 10 + 1, 5)` exceeds
`interval' = feed.interval or default_interval` (otherwise
`next_check_time` ends cleared). -/
theorem claim_C6 (E : DetectEnv) (now : Int) (feed : Feed)
    (h0 : skip_by_schedule now feed = false)
    (h1 : E.has_active_subs = true) (h2 : E.all_flood_locked = false)
    (h3 : E.wf.status ≠ 304) (h4 : E.wf.rss_d = none)
    (h5 : 10 ≤ feed.error_count + 1) (h6 : feed.error_count + 1 < 100) :
    (do_monitor_a_feed E now feed).feed.error_count =
      feed.error_count + 1 ∧
    (do_monitor_a_feed E now feed).stat = [StatOp.failed] ∧
    (do_monitor_a_feed E now feed).deactivate_called = false ∧
    (do_monitor_a_feed E now feed).migrate_called = false ∧
    (do_monitor_a_feed E now feed).fanout = [] ∧
    (do_monitor_a_feed E now feed).feed.next_check_time =
      failure_backoff E.default_interval feed.interval
        (feed.error_count + 1) now ∧
    failure_backoff E.default_interval feed.interval (feed.error_count + 1)
        now =
      (let interval :=
        match feed.interval with
        | some i => if i ≠ 0 then i else E.default_interval
        | none => E.default_interval
      let candidate :=
        min interval 15 * min ((feed.error_count + 1) / 10 + 1) 5
      if interval < candidate then some (now + (candidate : Int) * 60)
      else none) ∧
    (∀ s : MonitoringStat,
      (apply_stat_ops [StatOp.failed] s).counter_tier2.failed =
        s.counter_tier2.failed + 1 ∧
      (apply_stat_ops [StatOp.failed] s).counter_tier2.SUM =
        s.counter_tier2.SUM + 1) := by
  have h6' : ¬ 100 ≤ feed.error_count + 1 := by omega
  have hfail : ∀ s : MonitoringStat,
      (apply_stat_ops [StatOp.failed] s).counter_tier2.failed =
        s.counter_tier2.failed + 1 ∧
      (apply_stat_ops [StatOp.failed] s).counter_tier2.SUM =
        s.counter_tier2.SUM + 1 := by
    intro s
    simp [apply_stat_ops, apply_stat_op, MonitoringStat.failed,
      MonitoringStat._sum]
  by_cases hnc : failure_backoff E.default_interval feed.interval
      (feed.error_count + 1) now = feed.next_check_time <;>
    refine ⟨?_, ?_, ?_, ?_, ?_, ?_, rfl, hfail⟩ <;>
    simp only [do_monitor_a_feed, monitor_body, monitor_finally, h0, h1, h2,
      Bool.false_eq_true, if_false, if_neg h3, h4, if_neg h6', if_pos h5] <;>
    simp [hnc]

/-- Feed for the C6 witness: `error_count = 9`, `interval = 10` (the
spec's literal back-off scenario). -/
def feedC6 : Feed :=
  { id := 3, link := "http://example.org/f3", title := "t", etag := none
    last_modified := none, updated_at := 0, entry_hashes := none
    error_count := 9, next_check_time := none, interval := some 10 }

/-- Environment for the C6 witness: the fetch failed (`rss_d` is
`None`). -/
def envC6 : DetectEnv :=
  { has_active_subs := true, all_flood_locked := false
    wf := { status := 200, rss_d := none, web_response := none
            url := "http://example.org/f3", cf_cache_status := none }
    default_interval := 10, strip := fun s => s, parse_dt := fun _ => none
    calc_new_hashes := [], calc_updated_entries := [], migrate_result := none }

/-- Claim C6 witness: the spec's literal scenario — `error_count` 9 → 10,
`interval = 10`, candidate `min(10,15) * min(2,5) = 20 > 10`, so
`next_check_time = now + 20` minutes (1200 s) and `stat.failed` is
recorded. -/
theorem claim_C6_witness :
    (skip_by_schedule 0 feedC6 = false ∧ envC6.has_active_subs = true ∧
      envC6.all_flood_locked = false ∧ envC6.wf.status ≠ 304 ∧
      envC6.wf.rss_d = none ∧ 10 ≤ feedC6.error_count + 1 ∧
      feedC6.error_count + 1 < 100) ∧
    (do_monitor_a_feed envC6 0 feedC6).feed.error_count = 10 ∧
    (do_monitor_a_feed envC6 0 feedC6).stat = [StatOp.failed] ∧
    (do_monitor_a_feed envC6 0 feedC6).feed.next_check_time = some 1200 :=
  ⟨⟨rfl, rfl, rfl, by decide, rfl, by decide, by decide⟩,
   (claim_C6 envC6 0 feedC6 rfl rfl rfl (by decide) rfl (by decide)
      (by decide)).1,
   (claim_C6 envC6 0 feedC6 rfl rfl rfl (by decide) rfl (by decide)
      (by decide)).2.1,
   by
    have h := (claim_C6 envC6 0 feedC6 rfl rfl rfl (by decide) rfl (by decide)
      (by decide)).2.2.2.2.2.1
    simpa using h⟩

/-! ### Claim C7 -/

/-- Claim C7 (confirmed): the cache-based next-check computation returns,
in order: the response `expires` when `expires` is present,
`cf-cache-status` is one of HIT/MISS/EXPIRED/REVALIDATED and
`expires > now`; otherwise, for `generator == "RSSHub"` with a truthy
`updated` string, with the TTL seconds resolved from the decimal `ttl`
string (minutes × 60) or, failing that, the response `max-age`, it
returns `updated + ttl` iff the TTL exceeds 300 and that instant is in
the future (given that `updated` parses); in every remaining case it
returns `none` — and a `none` result makes the `finally` block leave
`next_check_time` cleared. -/
theorem claim_C7 :
    (∀ (parse : String → Option Int) (cf : Option String)
        (rssf : RssFeedMeta) (wr : WebResponseM) (e : Int),
      wr.expires = some e →
      (cf = some "HIT" ∨ cf = some "MISS" ∨ cf = some "EXPIRED" ∨
        cf = some "REVALIDATED") →
      wr.now < e →
      defer_next_check_as_per_server_side_cache parse cf rssf wr = some e) ∧
    (∀ (parse : String → Option Int) (cf : Option String)
        (rssf : RssFeedMeta) (wr : WebResponseM) (u : String) (t : Nat)
        (upd : Int),
      cloudflare_hit cf wr = false →
      rssf.generator = some "RSSHub" →
      rssf.updated = some u → u ≠ "" →
      rsshub_ttl_seconds rssf wr = some t →
      parse u = some upd →
      (defer_next_check_as_per_server_side_cache parse cf rssf wr =
          some (upd + (t : Int)) ↔
        (300 < t ∧ wr.now < upd + (t : Int)))) ∧
    (∀ (parse : String → Option Int) (cf : Option String)
        (rssf : RssFeedMeta) (wr : WebResponseM),
      defer_next_check_as_per_server_side_cache parse cf rssf wr = none ∨
      (cloudflare_hit cf wr = true ∧
        defer_next_check_as_per_server_side_cache parse cf rssf wr =
          wr.expires) ∨
      (∃ (u : String) (t : Nat) (upd : Int),
        cloudflare_hit cf wr = false ∧
        rssf.generator = some "RSSHub" ∧ rssf.updated = some u ∧ u ≠ "" ∧
        rsshub_ttl_seconds rssf wr = some t ∧ 300 < t ∧ parse u = some upd ∧
        wr.now < upd + (t : Int) ∧
        defer_next_check_as_per_server_side_cache parse cf rssf wr =
          some (upd + (t : Int)))) ∧
    (∀ (E : DetectEnv) (b : BodyResult),
      b.new_next_check_time = none →
      (monitor_finally E b).feed.next_check_time = none) := by
  refine ⟨?_, ?_, ?_, ?_⟩
  · intro parse cf rssf wr e he hcf hlt
    have hch : cloudflare_hit cf wr = true := by
      rcases hcf with h | h | h | h <;>
        simp [cloudflare_hit, he, cf_cache_status_ok, h, hlt]
    simp [defer_next_check_as_per_server_side_cache, hch, he]
  · intro parse cf rssf wr u t upd hch hg hu hne httl hp
    by_cases h300 : 300 < t <;>
      by_cases hnow : wr.now < upd + (t : Int) <;>
      simp [defer_next_check_as_per_server_side_cache, hch, hg, hu, hne,
        httl, hp, h300, hnow]
  · intro parse cf rssf wr
    by_cases hch : cloudflare_hit cf wr = true
    · exact Or.inr (Or.inl ⟨hch,
        by simp [defer_next_check_as_per_server_side_cache, hch]⟩)
    · have hch' : cloudflare_hit cf wr = false := by
        simpa using hch
      by_cases hg : rssf.generator = some "RSSHub"
      · rcases hup : rssf.updated with _ | u
        · exact Or.inl (by
            simp [defer_next_check_as_per_server_side_cache, hch', hg, hup])
        · by_cases hne : u = ""
          · exact Or.inl (by
              simp [defer_next_check_as_per_server_side_cache, hch', hg,
                hup, hne])
          · rcases httl : rsshub_ttl_seconds rssf wr with _ | t
            · exact Or.inl (by
                simp [defer_next_check_as_per_server_side_cache, hch', hg,
                  hup, hne, httl])
            · by_cases h300 : 300 < t
              · rcases hp : parse u with _ | upd
                · exact Or.inl (by
                    simp [defer_next_check_as_per_server_side_cache, hch',
                      hg, hup, hne, httl, h300, hp])
                · by_cases hnow : wr.now < upd + (t : Int)
                  · exact Or.inr (Or.inr ⟨u, t, upd, hch', hg, rfl, hne,
                      rfl, h300, hp, hnow, by
                        simp [defer_next_check_as_per_server_side_cache,
                          hch', hg, hup, hne, httl, h300, hp, hnow]⟩)
                  · exact Or.inl (by
                      simp [defer_next_check_as_per_server_side_cache,
                        hch', hg, hup, hne, httl, h300, hp, hnow])
              · exact Or.inl (by
                  simp [defer_next_check_as_per_server_side_cache, hch',
                    hg, hup, hne, httl, h300])
      · exact Or.inl (by
          simp [defer_next_check_as_per_server_side_cache, hch', hg])
  · intro E b hb
    simp only [monitor_finally, hb]
    split_ifs <;> simp_all

/-- Parser stub for the C7 witness (first branch; never consulted). -/
def parseW7 : String → Option Int := fun _ => none

/-- Feed metadata for the C7 witness's Cloudflare branch. -/
def rssfW7a : RssFeedMeta :=
  { generator := none, updated := none, ttl := none, title := "" }

/-- Web response for the C7 witness's Cloudflare branch: `expires` at 100,
`now` at 0. -/
def wrW7a : WebResponseM :=
  { etag := none, expires := some 100, now := 0, last_modified := none
    max_age := none }

/-- Parser for the C7 witness's RSSHub branch: `updated` parses to 7. -/
def parseW7b : String → Option Int := fun _ => some 7

/-- Feed metadata for the C7 witness's RSSHub branch: generator RSSHub,
`ttl = "10"` minutes. -/
def rssfW7b : RssFeedMeta :=
  { generator := some "RSSHub", updated := some "u", ttl := some "10"
    title := "" }

/-- Web response for the C7 witness's RSSHub branch: no `expires`, `now`
at 0. -/
def wrW7b : WebResponseM :=
  { etag := none, expires := none, now := 0, last_modified := none
    max_age := none }

/-- Feed for the C7 witness's clearing conjunct: a stored
`next_check_time`. -/
def feedW7 : Feed :=
  { id := 9, link := "http://example.org/w7", title := "", etag := none
    last_modified := none, updated_at := 0, entry_hashes := none
    error_count := 0, next_check_time := some 5, interval := none }

/-- Environment for the C7 witness's clearing conjunct. -/
def envW7 : DetectEnv :=
  { has_active_subs := true, all_flood_locked := false
    wf := { status := 200, rss_d := none, web_response := none
            url := "http://example.org/w7", cf_cache_status := none }
    default_interval := 10, strip := fun s => s, parse_dt := parseW7
    calc_new_hashes := [], calc_updated_entries := [], migrate_result := none }

/-- Body result for the C7 witness's clearing conjunct: the computed
next-check time is `none` while the feed still stores one. -/
def bW7 : BodyResult :=
  { feed := feedW7, no_error := true, new_next_check_time := none
    dirty := FeedUpdatedFields.emptySet, stat := [], updated_entries := none
    deactivate_called := false, crashed := false }

/-- Claim C7 witness: a Cloudflare HIT with future `expires` returns
`expires`; an RSSHub feed with `ttl = "10"` (600 s > 300) and `updated`
parsing to 7 returns `7 + 600 = 607`; and a `none` result clears a
previously stored `next_check_time` in the `finally` block. -/
theorem claim_C7_witness :
    (wrW7a.expires = some 100 ∧ wrW7a.now < 100 ∧
      defer_next_check_as_per_server_side_cache parseW7 (some "HIT")
        rssfW7a wrW7a = some 100) ∧
    (cloudflare_hit none wrW7b = false ∧
      rsshub_ttl_seconds rssfW7b wrW7b = some 600 ∧
      defer_next_check_as_per_server_side_cache parseW7b none rssfW7b
        wrW7b = some 607) ∧
    (bW7.new_next_check_time = none ∧ feedW7.next_check_time = some 5 ∧
      (monitor_finally envW7 bW7).feed.next_check_time = none) :=
  ⟨⟨rfl, by decide,
    claim_C7.1 parseW7 (some "HIT") rssfW7a wrW7a 100 rfl (Or.inl rfl)
      (by decide)⟩,
   ⟨by decide, by decide,
    (claim_C7.2.1 parseW7b none rssfW7b wrW7b "u" 600 7 (by decide) rfl rfl
        (by decide) (by decide) rfl).mpr ⟨by decide, by decide⟩⟩,
   ⟨rfl, rfl, claim_C7.2.2.2 envW7 bW7 rfl⟩⟩

/-! ### Claim C9 -/

/-- Claim C9 (amended): the first `print_summary` call only records the
baseline timestamps and emits nothing, leaving both counters unchanged;
every subsequent call emits the tier-2 window summary, folds tier-2 into
tier-1 and clears tier-2, and then emits and resets tier-1 if and only if
the elapsed time since the last tier-1 emit, rounded to the nearest
second by Python's `round` (half to even), is at least `TIMEOUT = 600` —
so an elapsed time in `[599.5 s, 600 s)` also triggers the tier-1 emit
(see the counterexample). -/
theorem claim_C9 :
    (∀ (s : MonitoringStat) (now : ℚ),
      s.tier1_last_summary_time = none →
      s.print_summary now =
        some ({ s with tier1_last_summary_time := some now
                       tier2_last_summary_time := some now }, [])) ∧
    (∀ (s : MonitoringStat) (now t1 t2 : ℚ),
      s.tier1_last_summary_time = some t1 →
      s.tier2_last_summary_time = some t2 →
      (pyRound (now - t1) < TIMEOUT →
        s.print_summary now =
          some ({ s with tier2_last_summary_time := some now
                         counter_tier1 := s.counter_tier1.add s.counter_tier2
                         counter_tier2 := MonitoringCounter.init },
                [summarize_event s.counter_tier2 LogLevel.debug
                   (pyRound (now - t2))])) ∧
      (TIMEOUT ≤ pyRound (now - t1) →
        s.print_summary now =
          some ({ s with tier1_last_summary_time := some now
                         tier2_last_summary_time := some now
                         counter_tier1 := MonitoringCounter.init
                         counter_tier2 := MonitoringCounter.init },
                [summarize_event s.counter_tier2 LogLevel.debug
                   (pyRound (now - t2)),
                 summarize_event (s.counter_tier1.add s.counter_tier2)
                   LogLevel.info (pyRound (now - t1))]))) := by
  constructor
  · intro s now h
    simp [MonitoringStat.print_summary, h]
  · intro s now t1 t2 h1 h2
    constructor
    · intro hlt
      simp [MonitoringStat.print_summary, h1, h2, hlt]
    · intro hge
      have hlt' : ¬ pyRound (now - t1) < TIMEOUT := not_lt.mpr hge
      simp [MonitoringStat.print_summary, h1, h2, hlt']

/-- Stat state for the C9 counterexample: both timestamps at 0, counters
empty. -/
def stC9 : MonitoringStat :=
  { counter_tier1 := MonitoringCounter.init
    counter_tier2 := MonitoringCounter.init
    tier1_last_summary_time := some 0, tier2_last_summary_time := some 0 }

/-- Claim C9 counterexample: at event-loop time `1199/2 = 599.5 s` —
strictly less than 600 s since the last tier-1 emit — `print_summary`
nevertheless emits the tier-1 summary (two events), resets the tier-1
timestamp and clears the tier-1 counter, because `round(599.5) = 600`:
the claim's "if and only if the elapsed time ... is at least 600 seconds"
is false on the code. -/
theorem claim_C9_counterexample :
    ((1199 : ℚ) / 2 < 600) ∧
    (stC9.print_summary ((1199 : ℚ) / 2)).map (fun p => p.2.length) =
      some 2 ∧
    (stC9.print_summary ((1199 : ℚ) / 2)).map
        (fun p => p.1.tier1_last_summary_time) =
      some (some ((1199 : ℚ) / 2)) ∧
    (stC9.print_summary ((1199 : ℚ) / 2)).map (fun p => p.1.counter_tier1) =
      some MonitoringCounter.init := by
  have hfl : Rat.floor ((1199 : ℚ) / 2) = 599 := by
    rw [Rat.floor_def']
    norm_num
  have hpy : pyRound ((1199 : ℚ) / 2) = 600 := by
    simp only [pyRound, hfl]
    norm_num
  refine ⟨by norm_num, ?_, ?_, ?_⟩ <;>
    simp [MonitoringStat.print_summary, stC9, hpy, TIMEOUT]

/-- Stat state for the C9 witness: both timestamps at 0, counters
empty. -/
def stW9 : MonitoringStat :=
  { counter_tier1 := MonitoringCounter.init
    counter_tier2 := MonitoringCounter.init
    tier1_last_summary_time := some 0, tier2_last_summary_time := some 0 }

/-- Claim C9 witness: a subsequent call 700 s after the last tier-1 emit
emits both summaries and resets both counters and timestamps. -/
theorem claim_C9_witness :
    (stW9.tier1_last_summary_time = some 0 ∧
      stW9.tier2_last_summary_time = some 0 ∧
      TIMEOUT ≤ pyRound ((700 : ℚ) - 0)) ∧
    stW9.print_summary 700 =
      some ({ stW9 with tier1_last_summary_time := some 700
                        tier2_last_summary_time := some 700
                        counter_tier1 := MonitoringCounter.init
                        counter_tier2 := MonitoringCounter.init },
            [summarize_event stW9.counter_tier2 LogLevel.debug
               (pyRound ((700 : ℚ) - 0)),
             summarize_event (stW9.counter_tier1.add stW9.counter_tier2)
               LogLevel.info (pyRound ((700 : ℚ) - 0))]) := by
  have hfl : Rat.floor ((700 : ℚ) - 0) = 700 := by
    rw [Rat.floor_def']
    norm_num
  have hpy : pyRound ((700 : ℚ) - 0) = 700 := by
    simp only [pyRound, hfl]
    norm_num
  refine ⟨⟨rfl, rfl, ?_⟩, (claim_C9.2 stW9 700 0 0 rfl rfl).2 ?_⟩ <;>
    rw [hpy] <;> norm_num [TIMEOUT]
